import Mathlib

/-!
Verification of the ropee protocol gateway (`src/main.go`).

The gateway terminates the Prometheus remote-write / remote-read wire
protocol over HTTP and forwards decoded requests to a backend client
(`storage.NewClient` / `.Read` / `.Write`).  The file embeds:

* a wire codec (protobuf-style message serialization followed by a
  length-framed compression envelope).  The protobuf and snappy libraries
  are external collaborators that are not part of this repository's
  sources, so the codec is modelled from the spec's Wire Codec contract
  (deterministic serialize-then-compress, decode as its inverse,
  deterministic rejection of malformed frames), using the protobuf wire
  layout of the three message schemas (WriteRequest, ReadRequest,
  ReadResponse) and a length-framed compression envelope in place of the
  snappy block matcher;
* the two HTTP handlers of `main.go` as pure functions over an
  environment that records the outcome of each external effect (body
  read, backend-client construction, backend call, response write).
-/

namespace Ropee

/-! ## Bytes and varints -/

/-- Base-128 varint encoding, least significant group first, continuation
bit `128` on every byte except the last.  The first argument is fuel; the
value strictly decreases at every recursive call, so fuel `n` always
suffices for value `n`. -/
def encodeVarintAux : Nat → Nat → List Nat
  | 0, n => [n % 128]
  | fuel + 1, n => if n < 128 then [n] else (n % 128 + 128) :: encodeVarintAux fuel (n / 128)

/-- Varint encoding of a natural number. -/
def encodeVarint (n : Nat) : List Nat := encodeVarintAux n n

/-- Varint decoding: returns the decoded value and the remaining bytes,
or `none` if the input ends inside a varint. -/
def decodeVarint : List Nat → Option (Nat × List Nat)
  | [] => none
  | b :: rest =>
    if b < 128 then some (b, rest)
    else
      match decodeVarint rest with
      | some (n, r) => some (n * 128 + b % 128, r)
      | none => none

theorem decodeVarint_encodeVarintAux (fuel n : Nat) (rest : List Nat) (h : n ≤ fuel) :
    decodeVarint (encodeVarintAux fuel n ++ rest) = some (n, rest) := by
  induction fuel generalizing n with
  | zero =>
    interval_cases n
    simp [encodeVarintAux, decodeVarint]
  | succ fuel ih =>
    by_cases hn : n < 128
    · simp [encodeVarintAux, hn, decodeVarint]
    · have hdiv : n / 128 ≤ fuel := by
        have h0 : 0 < n := by omega
        have h1 : (1 : Nat) < 128 := by omega
        have := Nat.div_lt_self h0 h1
        omega
      have hrec := ih (n / 128) hdiv
      simp only [encodeVarintAux, hn, if_false, List.cons_append]
      simp only [decodeVarint]
      have hb : ¬ (n % 128 + 128 < 128) := by omega
      simp only [hb, if_false, hrec]
      have : n / 128 * 128 + (n % 128 + 128) % 128 = n := by omega
      rw [this]

theorem decodeVarint_encodeVarint (n : Nat) (rest : List Nat) :
    decodeVarint (encodeVarint n ++ rest) = some (n, rest) :=
  decodeVarint_encodeVarintAux n n rest (Nat.le_refl n)

/-- A length-delimited byte field: varint length followed by the raw bytes. -/
def encBytes (l : List Nat) : List Nat := encodeVarint l.length ++ l

/-- Read a length-delimited byte field: varint length, then that many
bytes; fails if fewer bytes remain. -/
def readBytes (bs : List Nat) : Option (List Nat × List Nat) :=
  match decodeVarint bs with
  | some (len, rest) => if len ≤ rest.length then some (rest.take len, rest.drop len) else none
  | none => none

theorem readBytes_encBytes (l rest : List Nat) :
    readBytes (encBytes l ++ rest) = some (l, rest) := by
  unfold readBytes encBytes
  rw [List.append_assoc, decodeVarint_encodeVarint]
  simp [List.take_left, List.drop_left]

/-- Little-endian fixed 64-bit encoding (the wire form of a protobuf
`fixed64` / `double` value, held as its 8-byte pattern). -/
def encodeFixed64 (v : Nat) : List Nat :=
  [v % 256, v / 256 % 256, v / 65536 % 256, v / 16777216 % 256,
   v / 4294967296 % 256, v / 1099511627776 % 256,
   v / 281474976710656 % 256, v / 72057594037927936 % 256]

/-- Read 8 bytes as a little-endian 64-bit value. -/
def readFixed64 : List Nat → Option (Nat × List Nat)
  | b0 :: b1 :: b2 :: b3 :: b4 :: b5 :: b6 :: b7 :: rest =>
    some (b0 + 256 * (b1 + 256 * (b2 + 256 * (b3 + 256 * (b4 + 256 * (b5 + 256 * (b6 + 256 * b7)))))), rest)
  | _ => none

theorem readFixed64_encodeFixed64 (v : Nat) (rest : List Nat) (h : v < 18446744073709551616) :
    readFixed64 (encodeFixed64 v ++ rest) = some (v, rest) := by
  simp only [encodeFixed64, List.cons_append, List.nil_append, readFixed64]
  congr 1
  congr 1
  omega

/-- The unsigned 64-bit pattern of a (two's complement) `int64` value. -/
def u64ofInt (t : Int) : Nat := (t % 18446744073709551616).toNat

/-- Recover an `int64` value from its unsigned 64-bit pattern. -/
def intOfU64 (n : Nat) : Int :=
  if n < 9223372036854775808 then (n : Int) else (n : Int) - 18446744073709551616

theorem intOfU64_u64ofInt (t : Int) (h1 : -9223372036854775808 ≤ t)
    (h2 : t < 9223372036854775808) : intOfU64 (u64ofInt t) = t := by
  unfold intOfU64 u64ofInt
  omega

/-! ## Protocol message types

The structured messages of the Prometheus remote read/write protocol, as
used by the gateway (`prompb.WriteRequest`, `prompb.ReadRequest`,
`prompb.ReadResponse`).  Byte strings are modelled as `List Nat`; a
sample's floating point value is carried as its 64-bit wire pattern. -/

/-- A label pair of a time series. -/
structure Label where
  name : List Nat
  value : List Nat
deriving DecidableEq, Repr

/-- A sample: the 64-bit pattern of the double value, and an int64
timestamp in Unix-epoch milliseconds. -/
structure Sample where
  value : Nat
  timestamp : Int
deriving DecidableEq, Repr

/-- A time series: labels plus samples. -/
structure TimeSeries where
  labels : List Label
  samples : List Sample
deriving DecidableEq, Repr

/-- A write batch: the ordered time series of one remote-write request. -/
structure WriteRequest where
  timeseries : List TimeSeries
deriving DecidableEq, Repr

/-- Label matcher kinds: equality, not-equality, regex-equality,
regex-inequality (wire codes 0..3). -/
inductive MatcherType where
  | eq
  | neq
  | re
  | nre
deriving DecidableEq, Repr

/-- The wire code of a matcher kind. -/
def MatcherType.code : MatcherType → Nat
  | .eq => 0
  | .neq => 1
  | .re => 2
  | .nre => 3

/-- Decode a matcher kind from its wire code. -/
def MatcherType.ofCode : Nat → Option MatcherType
  | 0 => some .eq
  | 1 => some .neq
  | 2 => some .re
  | 3 => some .nre
  | _ => none

theorem MatcherType.ofCode_code (t : MatcherType) : MatcherType.ofCode t.code = some t := by
  cases t <;> rfl

/-- A label matcher of a read query. -/
structure LabelMatcher where
  type : MatcherType
  name : List Nat
  value : List Nat
deriving DecidableEq, Repr

/-- One query specification: inclusive time range plus matchers. -/
structure Query where
  startTimestampMs : Int
  endTimestampMs : Int
  matchers : List LabelMatcher
deriving DecidableEq, Repr

/-- A read request: one or more query specifications. -/
structure ReadRequest where
  queries : List Query
deriving DecidableEq, Repr

/-- The result set for one query specification. -/
structure QueryResult where
  timeseries : List TimeSeries
deriving DecidableEq, Repr

/-- A read response: one result set per input query, in input order. -/
structure ReadResponse where
  results : List QueryResult
deriving DecidableEq, Repr

/-! ## Protobuf-style serialization

Each message is the concatenation of its field encodings in field order;
a field is `tag byte` (`fieldNumber * 8 + wireType`) followed by the
field payload.  Submessages and byte strings are length-delimited
(wire type 2), integers are varints (wire type 0), doubles fixed64
(wire type 1).  The serializer emits every field, deterministically. -/

/-- Encoding of a repeated length-delimited field with tag byte `tb`:
the concatenation of `tb :: encBytes (enc item)` over the items. -/
def taggedEnc {α : Type} (tb : Nat) (enc : α → List Nat) (items : List α) : List Nat :=
  (items.map fun a => tb :: encBytes (enc a)).flatten

/-- Encode a `Label` (name = field 1 bytes, value = field 2 bytes). -/
def encLabel (l : Label) : List Nat := 10 :: encBytes l.name ++ 18 :: encBytes l.value

/-- Encode a `Sample` (value = field 1 fixed64, timestamp = field 2 int64). -/
def encSample (s : Sample) : List Nat :=
  9 :: encodeFixed64 s.value ++ 16 :: encodeVarint (u64ofInt s.timestamp)

/-- Encode a `TimeSeries` (labels = field 1, samples = field 2, both
repeated messages). -/
def encTimeSeries (ts : TimeSeries) : List Nat :=
  taggedEnc 10 encLabel ts.labels ++ taggedEnc 18 encSample ts.samples

/-- Encode a `WriteRequest` (timeseries = field 1 repeated message). -/
def encWriteRequest (w : WriteRequest) : List Nat :=
  taggedEnc 10 encTimeSeries w.timeseries

/-- Encode a `LabelMatcher` (type = field 1 enum, name = field 2 bytes,
value = field 3 bytes). -/
def encLabelMatcher (m : LabelMatcher) : List Nat :=
  8 :: encodeVarint m.type.code ++ 18 :: encBytes m.name ++ 26 :: encBytes m.value

/-- Encode a `Query` (start = field 1 int64, end = field 2 int64,
matchers = field 3 repeated message). -/
def encQuery (q : Query) : List Nat :=
  8 :: encodeVarint (u64ofInt q.startTimestampMs) ++
  16 :: encodeVarint (u64ofInt q.endTimestampMs) ++
  taggedEnc 26 encLabelMatcher q.matchers

/-- Encode a `ReadRequest` (queries = field 1 repeated message). -/
def encReadRequest (r : ReadRequest) : List Nat :=
  taggedEnc 10 encQuery r.queries

/-- Encode a `QueryResult` (timeseries = field 1 repeated message). -/
def encQueryResult (qr : QueryResult) : List Nat :=
  taggedEnc 10 encTimeSeries qr.timeseries

/-- Encode a `ReadResponse` (results = field 1 repeated message). -/
def encReadResponse (r : ReadResponse) : List Nat :=
  taggedEnc 10 encQueryResult r.results

/-! ## Protobuf-style parsing

Each decoder is deterministic and consumes exactly the bytes of its
message; malformed or truncated input yields `none`.  A repeated field
is parsed item by item while the next byte is the field's tag; the fuel
argument (instantiated with the buffer length) bounds the recursion. -/

/-- Parse a repeated length-delimited field with tag byte `tb`, using
`dec` to decode each item payload; stops at the first byte that is not
`tb` (or at the end of the buffer). -/
def decodeRepeated {α : Type} (tb : Nat) (dec : List Nat → Option α) :
    Nat → List Nat → Option (List α × List Nat)
  | _, [] => some ([], [])
  | 0, b :: bs => if b = tb then none else some ([], b :: bs)
  | fuel + 1, b :: bs =>
    if b = tb then
      match readBytes bs with
      | some (payload, rest) =>
        match dec payload with
        | some a =>
          match decodeRepeated tb dec fuel rest with
          | some (items, rest2) => some (a :: items, rest2)
          | none => none
        | none => none
      | none => none
    else some ([], b :: bs)

theorem decodeRepeated_not_tag {α : Type} (tb : Nat) (dec : List Nat → Option α)
    (fuel : Nat) (rest : List Nat) (h : rest.head? ≠ some tb) :
    decodeRepeated tb dec fuel rest = some ([], rest) := by
  cases rest with
  | nil => cases fuel <;> simp [decodeRepeated]
  | cons b bs =>
    have hb : ¬ b = tb := by simp only [List.head?_cons] at h; exact fun he => h (by rw [he])
    cases fuel <;> simp [decodeRepeated, hb]

theorem decodeRepeated_enc {α : Type} (tb : Nat) (dec : List Nat → Option α)
    (enc : α → List Nat) (items : List α) (rest : List Nat) (fuel : Nat)
    (hfuel : items.length ≤ fuel)
    (hdec : ∀ a ∈ items, dec (enc a) = some a)
    (hrest : rest.head? ≠ some tb) :
    decodeRepeated tb dec fuel (taggedEnc tb enc items ++ rest) = some (items, rest) := by
  unfold taggedEnc
  induction items generalizing fuel with
  | nil => simpa using decodeRepeated_not_tag tb dec fuel rest hrest
  | cons a items ih =>
    cases fuel with
    | zero => simp at hfuel
    | succ fuel =>
      have hlen : items.length ≤ fuel := by
        simp only [List.length_cons] at hfuel; omega
      have hdeca : dec (enc a) = some a := hdec a (List.mem_cons_self a items)
      have hdecrest : ∀ x ∈ items, dec (enc x) = some x :=
        fun x hx => hdec x (List.mem_cons_of_mem a hx)
      simp only [List.map_cons, List.flatten_cons, List.cons_append, List.append_assoc]
      simp only [decodeRepeated, if_pos rfl]
      rw [readBytes_encBytes]
      simp [hdeca, ih fuel hlen hdecrest]

theorem head_of_tagged {α : Type} (tb : Nat) (enc : α → List Nat) (items : List α)
    (tb' : Nat) (h : tb ≠ tb') :
    (taggedEnc tb enc items).head? ≠ some tb' := by
  unfold taggedEnc
  cases items with
  | nil => simp
  | cons a items =>
    simp only [List.map_cons, List.flatten_cons, List.cons_append, List.head?_cons]
    exact fun he => h (by injection he)

theorem length_le_tagged {α : Type} (tb : Nat) (enc : α → List Nat) (items : List α)
    (rest : List Nat) :
    items.length ≤ (taggedEnc tb enc items ++ rest).length := by
  unfold taggedEnc
  induction items with
  | nil => simp
  | cons a items ih =>
    simp only [List.map_cons, List.flatten_cons, List.cons_append, List.length_cons,
      List.append_assoc, List.length_append] at ih ⊢
    omega

/-- Decode a `Label` from a full field payload. -/
def decLabel (bs : List Nat) : Option Label :=
  match bs with
  | 10 :: bs1 =>
    match readBytes bs1 with
    | some (nm, rest1) =>
      match rest1 with
      | 18 :: bs2 =>
        match readBytes bs2 with
        | some (vl, rest2) => if rest2 = [] then some ⟨nm, vl⟩ else none
        | none => none
      | _ => none
    | none => none
  | _ => none

/-- Decode a `Sample` from a full field payload. -/
def decSample (bs : List Nat) : Option Sample :=
  match bs with
  | 9 :: bs1 =>
    match readFixed64 bs1 with
    | some (v, rest1) =>
      match rest1 with
      | 16 :: bs2 =>
        match decodeVarint bs2 with
        | some (u, rest2) => if rest2 = [] then some ⟨v, intOfU64 u⟩ else none
        | none => none
      | _ => none
    | none => none
  | _ => none

/-- Decode a `TimeSeries` from a full field payload. -/
def decTimeSeries (bs : List Nat) : Option TimeSeries :=
  match decodeRepeated 10 decLabel bs.length bs with
  | some (ls, rest1) =>
    match decodeRepeated 18 decSample rest1.length rest1 with
    | some (ss, []) => some ⟨ls, ss⟩
    | _ => none
  | none => none

/-- Decode a `WriteRequest` from a full message buffer. -/
def decWriteRequest (bs : List Nat) : Option WriteRequest :=
  match decodeRepeated 10 decTimeSeries bs.length bs with
  | some (l, []) => some ⟨l⟩
  | _ => none

/-- Decode a `LabelMatcher` from a full field payload. -/
def decLabelMatcher (bs : List Nat) : Option LabelMatcher :=
  match bs with
  | 8 :: bs1 =>
    match decodeVarint bs1 with
    | some (c, rest1) =>
      match MatcherType.ofCode c with
      | some t =>
        match rest1 with
        | 18 :: bs2 =>
          match readBytes bs2 with
          | some (nm, rest2) =>
            match rest2 with
            | 26 :: bs3 =>
              match readBytes bs3 with
              | some (vl, rest3) => if rest3 = [] then some ⟨t, nm, vl⟩ else none
              | none => none
            | _ => none
          | none => none
        | _ => none
      | none => none
    | none => none
  | _ => none

/-- Decode a `Query` from a full field payload. -/
def decQuery (bs : List Nat) : Option Query :=
  match bs with
  | 8 :: bs1 =>
    match decodeVarint bs1 with
    | some (us, rest1) =>
      match rest1 with
      | 16 :: bs2 =>
        match decodeVarint bs2 with
        | some (ue, rest2) =>
          match decodeRepeated 26 decLabelMatcher rest2.length rest2 with
          | some (ms, []) => some ⟨intOfU64 us, intOfU64 ue, ms⟩
          | _ => none
        | none => none
      | _ => none
    | none => none
  | _ => none

/-- Decode a `ReadRequest` from a full message buffer. -/
def decReadRequest (bs : List Nat) : Option ReadRequest :=
  match decodeRepeated 10 decQuery bs.length bs with
  | some (l, []) => some ⟨l⟩
  | _ => none

/-- Decode a `QueryResult` from a full field payload. -/
def decQueryResult (bs : List Nat) : Option QueryResult :=
  match decodeRepeated 10 decTimeSeries bs.length bs with
  | some (l, []) => some ⟨l⟩
  | _ => none

/-- Decode a `ReadResponse` from a full message buffer. -/
def decReadResponse (bs : List Nat) : Option ReadResponse :=
  match decodeRepeated 10 decQueryResult bs.length bs with
  | some (l, []) => some ⟨l⟩
  | _ => none

/-! ## Structural validity

A message is structurally valid when every byte string is made of bytes,
every timestamp fits an `int64`, and every sample value pattern fits 64
bits — exactly the value ranges of the wire types carrying them. -/

/-- Every entry is a byte. -/
def bytesValid (l : List Nat) : Prop := ∀ b ∈ l, b < 256

/-- The value fits a signed 64-bit integer. -/
def int64Range (t : Int) : Prop := -9223372036854775808 ≤ t ∧ t < 9223372036854775808

/-- Structural validity of a `Label`. -/
def Label.Valid (l : Label) : Prop := bytesValid l.name ∧ bytesValid l.value

/-- Structural validity of a `Sample`. -/
def Sample.Valid (s : Sample) : Prop :=
  s.value < 18446744073709551616 ∧ int64Range s.timestamp

/-- Structural validity of a `TimeSeries`. -/
def TimeSeries.Valid (ts : TimeSeries) : Prop :=
  (∀ l ∈ ts.labels, l.Valid) ∧ (∀ s ∈ ts.samples, s.Valid)

/-- Structural validity of a `WriteRequest`. -/
def WriteRequest.Valid (w : WriteRequest) : Prop := ∀ ts ∈ w.timeseries, ts.Valid

/-- Structural validity of a `LabelMatcher`. -/
def LabelMatcher.Valid (m : LabelMatcher) : Prop := bytesValid m.name ∧ bytesValid m.value

/-- Structural validity of a `Query`. -/
def Query.Valid (q : Query) : Prop :=
  int64Range q.startTimestampMs ∧ int64Range q.endTimestampMs ∧ ∀ m ∈ q.matchers, m.Valid

/-- Structural validity of a `ReadRequest`. -/
def ReadRequest.Valid (r : ReadRequest) : Prop := ∀ q ∈ r.queries, q.Valid

/-- Structural validity of a `QueryResult`. -/
def QueryResult.Valid (qr : QueryResult) : Prop := ∀ ts ∈ qr.timeseries, ts.Valid

/-- Structural validity of a `ReadResponse`. -/
def ReadResponse.Valid (r : ReadResponse) : Prop := ∀ qr ∈ r.results, qr.Valid

instance (l : List Nat) : Decidable (bytesValid l) := by
  unfold bytesValid; infer_instance

instance (t : Int) : Decidable (int64Range t) := by
  unfold int64Range; infer_instance

instance (l : Label) : Decidable l.Valid := by
  unfold Label.Valid; infer_instance

instance (s : Sample) : Decidable s.Valid := by
  unfold Sample.Valid; infer_instance

instance (ts : TimeSeries) : Decidable ts.Valid := by
  unfold TimeSeries.Valid; infer_instance

instance (w : WriteRequest) : Decidable w.Valid := by
  unfold WriteRequest.Valid; infer_instance

instance (m : LabelMatcher) : Decidable m.Valid := by
  unfold LabelMatcher.Valid; infer_instance

instance (q : Query) : Decidable q.Valid := by
  unfold Query.Valid; infer_instance

instance (r : ReadRequest) : Decidable r.Valid := by
  unfold ReadRequest.Valid; infer_instance

instance (qr : QueryResult) : Decidable qr.Valid := by
  unfold QueryResult.Valid; infer_instance

instance (r : ReadResponse) : Decidable r.Valid := by
  unfold ReadResponse.Valid; infer_instance

/-! ## Round trips of the per-message parsers -/

theorem taggedEnc_closed {α : Type} (tb : Nat) (dec : List Nat → Option α)
    (enc : α → List Nat) (items : List α)
    (hdec : ∀ a ∈ items, dec (enc a) = some a) :
    decodeRepeated tb dec (taggedEnc tb enc items).length (taggedEnc tb enc items)
      = some (items, []) := by
  have hfuel : items.length ≤ (taggedEnc tb enc items ++ ([] : List Nat)).length :=
    length_le_tagged tb enc items []
  have h := decodeRepeated_enc tb dec enc items [] (taggedEnc tb enc items).length
    (by simpa using hfuel) hdec (by simp)
  simpa using h

theorem decLabel_enc (l : Label) : decLabel (encLabel l) = some l := by
  have h1 := readBytes_encBytes l.name (18 :: encBytes l.value)
  have h2 := readBytes_encBytes l.value []
  rw [List.append_nil] at h2
  simp [decLabel, encLabel, h1, h2]

theorem decSample_enc (s : Sample) (h : s.Valid) : decSample (encSample s) = some s := by
  have h1 := readFixed64_encodeFixed64 s.value (16 :: encodeVarint (u64ofInt s.timestamp)) h.1
  have h2 := decodeVarint_encodeVarint (u64ofInt s.timestamp) []
  rw [List.append_nil] at h2
  have h3 := intOfU64_u64ofInt s.timestamp h.2.1 h.2.2
  simp [decSample, encSample, h1, h2, h3]

theorem decTimeSeries_enc (ts : TimeSeries) (h : ts.Valid) :
    decTimeSeries (encTimeSeries ts) = some ts := by
  have hdecL : ∀ l ∈ ts.labels, decLabel (encLabel l) = some l :=
    fun l _ => decLabel_enc l
  have hdecS : ∀ s ∈ ts.samples, decSample (encSample s) = some s :=
    fun s hs => decSample_enc s (h.2 s hs)
  have h1 : decodeRepeated 10 decLabel (encTimeSeries ts).length (encTimeSeries ts)
      = some (ts.labels, taggedEnc 18 encSample ts.samples) := by
    rw [encTimeSeries]
    exact decodeRepeated_enc 10 decLabel encLabel ts.labels _ _
      (length_le_tagged 10 encLabel ts.labels _) hdecL
      (head_of_tagged 18 encSample ts.samples 10 (by omega))
  have h2 := taggedEnc_closed 18 decSample encSample ts.samples hdecS
  simp [decTimeSeries, h1, h2]

theorem decWriteRequest_enc (w : WriteRequest) (h : w.Valid) :
    decWriteRequest (encWriteRequest w) = some w := by
  have hdec : ∀ ts ∈ w.timeseries, decTimeSeries (encTimeSeries ts) = some ts :=
    fun ts hts => decTimeSeries_enc ts (h ts hts)
  have h1 := taggedEnc_closed 10 decTimeSeries encTimeSeries w.timeseries hdec
  simp [decWriteRequest, encWriteRequest, h1]

theorem decLabelMatcher_enc (m : LabelMatcher) :
    decLabelMatcher (encLabelMatcher m) = some m := by
  have h1 := decodeVarint_encodeVarint m.type.code (18 :: encBytes m.name ++ 26 :: encBytes m.value)
  have h2 := readBytes_encBytes m.name (26 :: encBytes m.value)
  have h3 := readBytes_encBytes m.value []
  rw [List.append_nil] at h3
  simp only [List.cons_append] at h1 h2
  simp [decLabelMatcher, encLabelMatcher, h1, h2, h3, MatcherType.ofCode_code]

theorem decQuery_enc (q : Query) (h : q.Valid) : decQuery (encQuery q) = some q := by
  have h1 := decodeVarint_encodeVarint (u64ofInt q.startTimestampMs)
    (16 :: encodeVarint (u64ofInt q.endTimestampMs) ++ taggedEnc 26 encLabelMatcher q.matchers)
  have h2 := decodeVarint_encodeVarint (u64ofInt q.endTimestampMs)
    (taggedEnc 26 encLabelMatcher q.matchers)
  have h3 := taggedEnc_closed 26 decLabelMatcher encLabelMatcher q.matchers
    (fun m _ => decLabelMatcher_enc m)
  have h4 := intOfU64_u64ofInt q.startTimestampMs h.1.1 h.1.2
  have h5 := intOfU64_u64ofInt q.endTimestampMs h.2.1.1 h.2.1.2
  simp only [List.cons_append] at h1 h2
  simp [decQuery, encQuery, h1, h2, h3, h4, h5]

theorem decReadRequest_enc (r : ReadRequest) (h : r.Valid) :
    decReadRequest (encReadRequest r) = some r := by
  have hdec : ∀ q ∈ r.queries, decQuery (encQuery q) = some q :=
    fun q hq => decQuery_enc q (h q hq)
  have h1 := taggedEnc_closed 10 decQuery encQuery r.queries hdec
  simp [decReadRequest, encReadRequest, h1]

theorem decQueryResult_enc (qr : QueryResult) (h : qr.Valid) :
    decQueryResult (encQueryResult qr) = some qr := by
  have hdec : ∀ ts ∈ qr.timeseries, decTimeSeries (encTimeSeries ts) = some ts :=
    fun ts hts => decTimeSeries_enc ts (h ts hts)
  have h1 := taggedEnc_closed 10 decTimeSeries encTimeSeries qr.timeseries hdec
  simp [decQueryResult, encQueryResult, h1]

theorem decReadResponse_enc (r : ReadResponse) (h : r.Valid) :
    decReadResponse (encReadResponse r) = some r := by
  have hdec : ∀ qr ∈ r.results, decQueryResult (encQueryResult qr) = some qr :=
    fun qr hqr => decQueryResult_enc qr (h qr hqr)
  have h1 := taggedEnc_closed 10 decQueryResult encQueryResult r.results hdec
  simp [decReadResponse, encReadResponse, h1]

/-! ## Compression envelope and full wire codec

Modelled from the spec: the compression library (snappy) is an external
collaborator, not part of this repository's sources.  The spec's Wire
Codec contract describes a deterministic, length-framed compressed byte
payload whose decoder rejects malformed frames deterministically; the
model frames the payload with its varint length and rejects any frame
whose remaining length disagrees. -/

/-- Compression envelope: varint length of the payload followed by the
payload bytes. -/
def snappyEncode (b : List Nat) : List Nat := encodeVarint b.length ++ b

/-- Inverse of `snappyEncode`: reads the length frame and fails unless
exactly that many bytes follow. -/
def snappyDecode (bs : List Nat) : Option (List Nat) :=
  match decodeVarint bs with
  | some (len, rest) => if rest.length = len then some rest else none
  | none => none

theorem snappyDecode_encode (b : List Nat) : snappyDecode (snappyEncode b) = some b := by
  have h := decodeVarint_encodeVarint b.length b
  simp [snappyDecode, snappyEncode, h]

/-- Wire encoding of a `WriteRequest`: serialize, then compress. -/
def encodeWireWrite (w : WriteRequest) : List Nat := snappyEncode (encWriteRequest w)

/-- Wire decoding of a `WriteRequest`: decompress, then parse. -/
def decodeWireWrite (bs : List Nat) : Option WriteRequest :=
  match snappyDecode bs with
  | some buf => decWriteRequest buf
  | none => none

/-- Wire encoding of a `ReadRequest`. -/
def encodeWireRead (r : ReadRequest) : List Nat := snappyEncode (encReadRequest r)

/-- Wire decoding of a `ReadRequest`. -/
def decodeWireRead (bs : List Nat) : Option ReadRequest :=
  match snappyDecode bs with
  | some buf => decReadRequest buf
  | none => none

/-- Wire encoding of a `ReadResponse`. -/
def encodeWireResp (r : ReadResponse) : List Nat := snappyEncode (encReadResponse r)

/-- Wire decoding of a `ReadResponse`. -/
def decodeWireResp (bs : List Nat) : Option ReadResponse :=
  match snappyDecode bs with
  | some buf => decReadResponse buf
  | none => none

/-! ## Gateway model

The two HTTP handlers of `main.go` as pure functions.  Each external
effect (reading the request body, constructing the backend client,
calling the backend, writing the response) is an input supplied by an
environment record; the handler's control flow, counter increments and
response construction are transcribed from the source.  `main.go` never
checks the construction error of `storage.NewClient` (it is bound to
`_`), so invoking `Read`/`Write` on a failed construction leaves the
transport behaviour undefined by this file's source: the outcome then
records `response = none` together with the fact that the invocation was
attempted. -/

/-- The configuration flags of `main.go` (`Config` plus the flag
defaults; all fixed at startup). -/
structure Config where
  splunkUrl : String
  splunkMetricsIndex : String
  splunkMetricsSourceType : String
  splunkHECURL : String
  splunkHECToken : String
  timeoutSeconds : Int
  listenAddr : String
  logFilePath : String
  debug : Bool
deriving DecidableEq

/-- The arguments of a `storage.NewClient` call (the timeout is a Go
`time.Duration`, i.e. nanoseconds). -/
structure ClientArgs where
  url : String
  user : String
  pass : String
  index : String
  sourceType : String
  hecUrl : String
  hecToken : String
  timeoutNs : Int
deriving DecidableEq

/-- The `storage.NewClient` argument list built by both handlers:
`config.SplunkUrl, user, pass, index, sourcetype, HEC url, HEC token,
time.Second * time.Duration(config.TimeoutSeconds)`. -/
def mkClientArgs (cfg : Config) (user pass : String) : ClientArgs :=
  { url := cfg.splunkUrl, user := user, pass := pass,
    index := cfg.splunkMetricsIndex, sourceType := cfg.splunkMetricsSourceType,
    hecUrl := cfg.splunkHECURL, hecToken := cfg.splunkHECToken,
    timeoutNs := 1000000000 * cfg.timeoutSeconds }

/-- The write-path client handle arguments: constructed once in `main`
before the `/write` handler is registered, with empty static
credentials. -/
def writeClientArgs (cfg : Config) : ClientArgs := mkClientArgs cfg ("") ("")

/-- Outcome of a fallible Go call returning `(value, error)`. -/
inductive GoResult (α : Type) where
  | ok (a : α)
  | fail (msg : String)
deriving DecidableEq

/-- An inbound HTTP request as the handlers see it: its method and the
outcome of `r.BasicAuth()` (the body is read through the environment,
since reading it is itself fallible). -/
structure HttpRequest where
  method : String
  basicAuth : Option (String × String)
deriving DecidableEq

/-- Credential extraction `user, pass, _ := r.BasicAuth()`: the ok flag
is ignored, and an absent or unparsable header leaves both strings
empty. -/
def basicCreds (r : HttpRequest) : String × String :=
  match r.basicAuth with
  | some (u, p) => (u, p)
  | none => ("", "")

/-- A response body: text or binary. -/
inductive RespBody where
  | text (s : String)
  | binary (bs : List Nat)
deriving DecidableEq

/-- The response the handler produces: transport status, the two headers
the read handler sets, and the body. -/
structure HttpResponse where
  status : Nat
  contentType : Option String
  contentEncoding : Option String
  body : RespBody
deriving DecidableEq

/-- The response of `http.Error(w, msg, code)`: sets the status and
writes the message followed by a newline. -/
def httpError (msg : String) (code : Nat) : HttpResponse :=
  { status := code, contentType := none, contentEncoding := none,
    body := .text (msg ++ "\n") }

/-- The error message of a failed `snappy.Decode` (its content is the
library's; no claim depends on it). -/
def snappyErrMsg : String := "snappy: corrupt input"

/-- The error message of a failed `proto.Unmarshal` (its content is the
library's; no claim depends on it). -/
def unmarshalErrMsg : String := "proto: cannot parse invalid wire-format data"

/-- The `/read` success response: status 200, the two wire-format
headers, and the compressed serialized result as body. -/
def readSuccessResponse (resp : ReadResponse) : HttpResponse :=
  { status := 200, contentType := some ("application/x-protobuf"),
    contentEncoding := some ("snappy"),
    body := .binary (snappyEncode (encReadResponse resp)) }

/-- The `/write` success response: status 200 and the fixed body `ok`. -/
def writeSuccessResponse : HttpResponse :=
  { status := 200, contentType := none, contentEncoding := none,
    body := .text ("ok") }

/-- Environment of one `/read` request: the outcome of each external
effect the handler performs. -/
structure ReadEnv where
  bodyResult : GoResult (List Nat)
  clientOk : Bool
  readResult : GoResult ReadResponse
deriving DecidableEq

/-- Observable outcome of one `/read` request.  `response = none` marks
the one path whose transport behaviour `main.go` does not define
(invoking `Read` on a failed construction). -/
structure ReadOutcome where
  response : Option HttpResponse
  counterIncr : Nat
  clientArgs : Option ClientArgs
  backendCalls : Nat
  backendQuery : Option ReadRequest
  readOnFailedClient : Bool
deriving DecidableEq

/-- The `/read` handler of `main.go` (lines 79-132): read body (500 on
failure), snappy-decode (400 on failure), increment the read counter,
unmarshal (400 on failure), build a per-request client from the caller's
basic credentials discarding the construction error, call `Read` (500
with the error text on failure), then marshal, set the two headers and
write the compressed result.  A failure writing the response body is
logged after the status is already committed, so the produced response
does not depend on it. -/
def readHandler (cfg : Config) (r : HttpRequest) (env : ReadEnv) : ReadOutcome :=
  match env.bodyResult with
  | .fail e =>
    { response := some (httpError e 500), counterIncr := 0, clientArgs := none,
      backendCalls := 0, backendQuery := none, readOnFailedClient := false }
  | .ok compressed =>
    match snappyDecode compressed with
    | none =>
      { response := some (httpError snappyErrMsg 400), counterIncr := 0,
        clientArgs := none, backendCalls := 0, backendQuery := none,
        readOnFailedClient := false }
    | some reqBuf =>
      -- metrics.ReadRequestCounter.Add(1) happens here, before Unmarshal
      match decReadRequest reqBuf with
      | none =>
        { response := some (httpError unmarshalErrMsg 400), counterIncr := 1,
          clientArgs := none, backendCalls := 0, backendQuery := none,
          readOnFailedClient := false }
      | some req =>
        let creds := basicCreds r
        let args := mkClientArgs cfg creds.1 creds.2
        if env.clientOk then
          match env.readResult with
          | .fail e =>
            { response := some (httpError e 500), counterIncr := 1,
              clientArgs := some args, backendCalls := 1, backendQuery := some req,
              readOnFailedClient := false }
          | .ok resp =>
            { response := some (readSuccessResponse resp),
              counterIncr := 1, clientArgs := some args, backendCalls := 1,
              backendQuery := some req, readOnFailedClient := false }
        else
          { response := none, counterIncr := 1, clientArgs := some args,
            backendCalls := 1, backendQuery := some req, readOnFailedClient := true }

/-- Environment of one `/write` request. -/
structure WriteEnv where
  bodyResult : GoResult (List Nat)
  writeResult : GoResult Unit
  ackWriteOk : Bool
deriving DecidableEq

/-- Observable outcome of one `/write` request. -/
structure WriteOutcome where
  response : Option HttpResponse
  counterIncr : Nat
  clientArgs : Option ClientArgs
  backendCalls : Nat
  backendBatch : Option WriteRequest
  ackFailLogged : Bool
deriving DecidableEq

/-- The `/write` handler of `main.go` (lines 143-173): read body (500 on
failure), snappy-decode (400 on failure), increment the write counter,
unmarshal (400 on failure), call `Write` on the shared startup client
(500 with the error text on failure), then send status 200 and the body
`ok`, logging — and nothing more — if that final write fails.
`ctorFailed` records whether the startup `storage.NewClient` call (whose
error `main` discards) failed; the handler uses the handle either way. -/
def writeHandler (cfg : Config) (ctorFailed : Bool) (r : HttpRequest) (env : WriteEnv) :
    WriteOutcome :=
  match env.bodyResult with
  | .fail e =>
    { response := some (httpError e 500), counterIncr := 0, clientArgs := none,
      backendCalls := 0, backendBatch := none, ackFailLogged := false }
  | .ok compressed =>
    match snappyDecode compressed with
    | none =>
      { response := some (httpError snappyErrMsg 400), counterIncr := 0,
        clientArgs := none, backendCalls := 0, backendBatch := none,
        ackFailLogged := false }
    | some reqBuf =>
      -- metrics.WriteRequestCounter.Add(1) happens here, before Unmarshal
      match decWriteRequest reqBuf with
      | none =>
        { response := some (httpError unmarshalErrMsg 400), counterIncr := 1,
          clientArgs := none, backendCalls := 0, backendBatch := none,
          ackFailLogged := false }
      | some req =>
        if ctorFailed then
          { response := none, counterIncr := 1,
            clientArgs := some (writeClientArgs cfg), backendCalls := 1,
            backendBatch := some req, ackFailLogged := false }
        else
          match env.writeResult with
          | .fail e =>
            { response := some (httpError e 500), counterIncr := 1,
              clientArgs := some (writeClientArgs cfg), backendCalls := 1,
              backendBatch := some req, ackFailLogged := false }
          | .ok _ =>
            { response := some writeSuccessResponse,
              counterIncr := 1, clientArgs := some (writeClientArgs cfg),
              backendCalls := 1, backendBatch := some req,
              ackFailLogged := ! env.ackWriteOk }

/-! ## Branch characterizations of the two handlers -/

theorem readHandler_body_fail (cfg : Config) (r : HttpRequest) (env : ReadEnv)
    (e : String) (hb : env.bodyResult = .fail e) :
    readHandler cfg r env =
      { response := some (httpError e 500), counterIncr := 0, clientArgs := none,
        backendCalls := 0, backendQuery := none, readOnFailedClient := false } := by
  simp [readHandler, hb]

theorem readHandler_snappy_fail (cfg : Config) (r : HttpRequest) (env : ReadEnv)
    (bs : List Nat) (hb : env.bodyResult = .ok bs) (hs : snappyDecode bs = none) :
    readHandler cfg r env =
      { response := some (httpError snappyErrMsg 400), counterIncr := 0,
        clientArgs := none, backendCalls := 0, backendQuery := none,
        readOnFailedClient := false } := by
  simp [readHandler, hb, hs]

theorem readHandler_parse_fail (cfg : Config) (r : HttpRequest) (env : ReadEnv)
    (bs buf : List Nat) (hb : env.bodyResult = .ok bs)
    (hs : snappyDecode bs = some buf) (hd : decReadRequest buf = none) :
    readHandler cfg r env =
      { response := some (httpError unmarshalErrMsg 400), counterIncr := 1,
        clientArgs := none, backendCalls := 0, backendQuery := none,
        readOnFailedClient := false } := by
  simp [readHandler, hb, hs, hd]

theorem readHandler_client_failed (cfg : Config) (r : HttpRequest) (env : ReadEnv)
    (bs buf : List Nat) (req : ReadRequest) (hb : env.bodyResult = .ok bs)
    (hs : snappyDecode bs = some buf) (hd : decReadRequest buf = some req)
    (hc : env.clientOk = false) :
    readHandler cfg r env =
      { response := none, counterIncr := 1,
        clientArgs := some (mkClientArgs cfg (basicCreds r).1 (basicCreds r).2),
        backendCalls := 1, backendQuery := some req, readOnFailedClient := true } := by
  simp [readHandler, hb, hs, hd, hc]

theorem readHandler_backend_fail (cfg : Config) (r : HttpRequest) (env : ReadEnv)
    (bs buf : List Nat) (req : ReadRequest) (e : String) (hb : env.bodyResult = .ok bs)
    (hs : snappyDecode bs = some buf) (hd : decReadRequest buf = some req)
    (hc : env.clientOk = true) (hr : env.readResult = .fail e) :
    readHandler cfg r env =
      { response := some (httpError e 500), counterIncr := 1,
        clientArgs := some (mkClientArgs cfg (basicCreds r).1 (basicCreds r).2),
        backendCalls := 1, backendQuery := some req, readOnFailedClient := false } := by
  simp [readHandler, hb, hs, hd, hc, hr]

theorem readHandler_success (cfg : Config) (r : HttpRequest) (env : ReadEnv)
    (bs buf : List Nat) (req : ReadRequest) (resp : ReadResponse)
    (hb : env.bodyResult = .ok bs) (hs : snappyDecode bs = some buf)
    (hd : decReadRequest buf = some req) (hc : env.clientOk = true)
    (hr : env.readResult = .ok resp) :
    readHandler cfg r env =
      { response := some (readSuccessResponse resp), counterIncr := 1,
        clientArgs := some (mkClientArgs cfg (basicCreds r).1 (basicCreds r).2),
        backendCalls := 1, backendQuery := some req, readOnFailedClient := false } := by
  simp [readHandler, hb, hs, hd, hc, hr]

theorem writeHandler_body_fail (cfg : Config) (cf : Bool) (r : HttpRequest)
    (env : WriteEnv) (e : String) (hb : env.bodyResult = .fail e) :
    writeHandler cfg cf r env =
      { response := some (httpError e 500), counterIncr := 0, clientArgs := none,
        backendCalls := 0, backendBatch := none, ackFailLogged := false } := by
  simp [writeHandler, hb]

theorem writeHandler_snappy_fail (cfg : Config) (cf : Bool) (r : HttpRequest)
    (env : WriteEnv) (bs : List Nat) (hb : env.bodyResult = .ok bs)
    (hs : snappyDecode bs = none) :
    writeHandler cfg cf r env =
      { response := some (httpError snappyErrMsg 400), counterIncr := 0,
        clientArgs := none, backendCalls := 0, backendBatch := none,
        ackFailLogged := false } := by
  simp [writeHandler, hb, hs]

theorem writeHandler_parse_fail (cfg : Config) (cf : Bool) (r : HttpRequest)
    (env : WriteEnv) (bs buf : List Nat) (hb : env.bodyResult = .ok bs)
    (hs : snappyDecode bs = some buf) (hd : decWriteRequest buf = none) :
    writeHandler cfg cf r env =
      { response := some (httpError unmarshalErrMsg 400), counterIncr := 1,
        clientArgs := none, backendCalls := 0, backendBatch := none,
        ackFailLogged := false } := by
  simp [writeHandler, hb, hs, hd]

theorem writeHandler_ctor_failed (cfg : Config) (r : HttpRequest) (env : WriteEnv)
    (bs buf : List Nat) (req : WriteRequest) (hb : env.bodyResult = .ok bs)
    (hs : snappyDecode bs = some buf) (hd : decWriteRequest buf = some req) :
    writeHandler cfg true r env =
      { response := none, counterIncr := 1, clientArgs := some (writeClientArgs cfg),
        backendCalls := 1, backendBatch := some req, ackFailLogged := false } := by
  simp [writeHandler, hb, hs, hd]

theorem writeHandler_backend_fail (cfg : Config) (r : HttpRequest) (env : WriteEnv)
    (bs buf : List Nat) (req : WriteRequest) (e : String) (hb : env.bodyResult = .ok bs)
    (hs : snappyDecode bs = some buf) (hd : decWriteRequest buf = some req)
    (hw : env.writeResult = .fail e) :
    writeHandler cfg false r env =
      { response := some (httpError e 500), counterIncr := 1,
        clientArgs := some (writeClientArgs cfg), backendCalls := 1,
        backendBatch := some req, ackFailLogged := false } := by
  simp [writeHandler, hb, hs, hd, hw]

theorem writeHandler_success (cfg : Config) (r : HttpRequest) (env : WriteEnv)
    (bs buf : List Nat) (req : WriteRequest) (hb : env.bodyResult = .ok bs)
    (hs : snappyDecode bs = some buf) (hd : decWriteRequest buf = some req)
    (hw : env.writeResult = .ok ()) :
    writeHandler cfg false r env =
      { response := some writeSuccessResponse, counterIncr := 1,
        clientArgs := some (writeClientArgs cfg), backendCalls := 1,
        backendBatch := some req, ackFailLogged := ! env.ackWriteOk } := by
  simp [writeHandler, hb, hs, hd, hw]

/-- Decompose a successful wire decode of a `ReadRequest` into its two
stages. -/
theorem decodeWireRead_some (bs : List Nat) (req : ReadRequest)
    (h : decodeWireRead bs = some req) :
    ∃ buf, snappyDecode bs = some buf ∧ decReadRequest buf = some req := by
  unfold decodeWireRead at h
  cases hs : snappyDecode bs with
  | none => rw [hs] at h; exact absurd h (by simp)
  | some buf => rw [hs] at h; exact ⟨buf, rfl, h⟩

/-- Decompose a successful wire decode of a `WriteRequest` into its two
stages. -/
theorem decodeWireWrite_some (bs : List Nat) (req : WriteRequest)
    (h : decodeWireWrite bs = some req) :
    ∃ buf, snappyDecode bs = some buf ∧ decWriteRequest buf = some req := by
  unfold decodeWireWrite at h
  cases hs : snappyDecode bs with
  | none => rw [hs] at h; exact absurd h (by simp)
  | some buf => rw [hs] at h; exact ⟨buf, rfl, h⟩

/-- A failed wire decode of a `ReadRequest` fails at one of its two
stages. -/
theorem decodeWireRead_none (bs : List Nat) (h : decodeWireRead bs = none) :
    snappyDecode bs = none ∨
      ∃ buf, snappyDecode bs = some buf ∧ decReadRequest buf = none := by
  unfold decodeWireRead at h
  cases hs : snappyDecode bs with
  | none => exact Or.inl rfl
  | some buf => rw [hs] at h; exact Or.inr ⟨buf, rfl, h⟩

/-- A failed wire decode of a `WriteRequest` fails at one of its two
stages. -/
theorem decodeWireWrite_none (bs : List Nat) (h : decodeWireWrite bs = none) :
    snappyDecode bs = none ∨
      ∃ buf, snappyDecode bs = some buf ∧ decWriteRequest buf = none := by
  unfold decodeWireWrite at h
  cases hs : snappyDecode bs with
  | none => exact Or.inl rfl
  | some buf => rw [hs] at h; exact Or.inr ⟨buf, rfl, h⟩

/-- The handlers invoke the backend at most once per request: there is
no retry on the read path. -/
theorem readHandler_at_most_one_call (cfg : Config) (r : HttpRequest) (env : ReadEnv) :
    (readHandler cfg r env).backendCalls ≤ 1 := by
  cases hb : env.bodyResult with
  | fail e => rw [readHandler_body_fail cfg r env e hb]; exact Nat.zero_le 1
  | ok bs =>
    cases hs : snappyDecode bs with
    | none => rw [readHandler_snappy_fail cfg r env bs hb hs]; exact Nat.zero_le 1
    | some buf =>
      cases hd : decReadRequest buf with
      | none => rw [readHandler_parse_fail cfg r env bs buf hb hs hd]; exact Nat.zero_le 1
      | some req =>
        cases hc : env.clientOk with
        | false =>
          rw [readHandler_client_failed cfg r env bs buf req hb hs hd hc]
        | true =>
          cases hr : env.readResult with
          | fail e =>
            rw [readHandler_backend_fail cfg r env bs buf req e hb hs hd hc hr]
          | ok resp =>
            rw [readHandler_success cfg r env bs buf req resp hb hs hd hc hr]

/-- The handlers invoke the backend at most once per request: there is
no retry on the write path. -/
theorem writeHandler_at_most_one_call (cfg : Config) (cf : Bool) (r : HttpRequest)
    (env : WriteEnv) : (writeHandler cfg cf r env).backendCalls ≤ 1 := by
  cases hb : env.bodyResult with
  | fail e => rw [writeHandler_body_fail cfg cf r env e hb]; exact Nat.zero_le 1
  | ok bs =>
    cases hs : snappyDecode bs with
    | none => rw [writeHandler_snappy_fail cfg cf r env bs hb hs]; exact Nat.zero_le 1
    | some buf =>
      cases hd : decWriteRequest buf with
      | none => rw [writeHandler_parse_fail cfg cf r env bs buf hb hs hd]; exact Nat.zero_le 1
      | some req =>
        cases cf with
        | true =>
          rw [writeHandler_ctor_failed cfg r env bs buf req hb hs hd]
        | false =>
          cases hw : env.writeResult with
          | fail e =>
            rw [writeHandler_backend_fail cfg r env bs buf req e hb hs hd hw]
          | ok u =>
            cases u
            rw [writeHandler_success cfg r env bs buf req hb hs hd hw]

/-- Whenever the write handler records client arguments, they are the
static startup arguments. -/
theorem writeHandler_clientArgs_static (cfg : Config) (cf : Bool) (r : HttpRequest)
    (env : WriteEnv) (args : ClientArgs)
    (h : (writeHandler cfg cf r env).clientArgs = some args) :
    args = writeClientArgs cfg := by
  cases hb : env.bodyResult with
  | fail e => rw [writeHandler_body_fail cfg cf r env e hb] at h; simp at h
  | ok bs =>
    cases hs : snappyDecode bs with
    | none => rw [writeHandler_snappy_fail cfg cf r env bs hb hs] at h; simp at h
    | some buf =>
      cases hd : decWriteRequest buf with
      | none => rw [writeHandler_parse_fail cfg cf r env bs buf hb hs hd] at h; simp at h
      | some req =>
        cases cf with
        | true =>
          rw [writeHandler_ctor_failed cfg r env bs buf req hb hs hd] at h
          injection h with h2
          exact h2.symm
        | false =>
          cases hw : env.writeResult with
          | fail e =>
            rw [writeHandler_backend_fail cfg r env bs buf req e hb hs hd hw] at h
            injection h with h2
            exact h2.symm
          | ok u =>
            cases u
            rw [writeHandler_success cfg r env bs buf req hb hs hd hw] at h
            injection h with h2
            exact h2.symm

/-! ## Concrete fixtures -/

/-- A concrete configuration (the flag defaults of `main.go`). -/
def cfgEx : Config :=
  ⟨"https://127.0.0.1:8089", "*", "DaoCloud_promu_metrics", "https://127.0.0.1:8088",
   "tok", 60, "127.0.0.1:9970", "/var/log", false⟩

/-- A POST request without an Authorization header. -/
def reqPost : HttpRequest := ⟨"POST", none⟩

/-- A POST request with basic credentials. -/
def reqAlice : HttpRequest := ⟨"POST", some ("alice", "secret")⟩

/-- A concrete read request: `__name__="up"` over `[0, 2000]`. -/
def qEx : ReadRequest :=
  ⟨[⟨0, 2000, [⟨.eq, [95, 95, 110, 97, 109, 101, 95, 95], [117, 112]⟩]⟩]⟩

/-- A concrete write batch: one series `__name__="up"` with one sample
`(t = 1000, v = bits of 1.0)`. -/
def wEx : WriteRequest :=
  ⟨[⟨[⟨[95, 95, 110, 97, 109, 101, 95, 95], [117, 112]⟩], [⟨4607182418800017408, 1000⟩]⟩]⟩

/-- A concrete read response: one result set with one small series. -/
def pEx : ReadResponse := ⟨[⟨[⟨[⟨[97], [98]⟩], [⟨7, 5⟩]⟩]⟩]⟩

/-- The wire bytes of `qEx`. -/
def readBodyEx : List Nat := encodeWireRead qEx

/-- The wire bytes of `wEx`. -/
def writeBodyEx : List Nat := encodeWireWrite wEx

/-! ## Claims -/

/-- C1, counterexample: a `/read` body that decompresses correctly but
does not parse as a message.  Decoding fails (the message is malformed),
yet the request counter is incremented — contradicting the claim that a
request whose decoding fails never increments the counter. -/
theorem C1_counterexample :
    decodeWireRead (snappyEncode [8]) = none ∧
    (readHandler cfgEx reqPost ⟨.ok (snappyEncode [8]), true, .ok pEx⟩).counterIncr = 1 := by
  decide

/-- C1 (amended): the request counter of each handler is incremented
exactly when snappy decompression of the request body succeeds: it stays
0 when the body read or the decompression fails, and it is incremented
exactly once as soon as decompression succeeds — including when the
subsequent message unmarshalling fails — and in particular exactly once
for every fully decoded request, regardless of the backend call's
outcome. -/
theorem C1_counter_increment_iff_decompressed (cfg : Config) (r : HttpRequest)
    (env : ReadEnv) (wenv : WriteEnv) (cf : Bool) :
    ((readHandler cfg r env).counterIncr =
      match env.bodyResult with
      | .fail _ => 0
      | .ok bs =>
        match snappyDecode bs with
        | none => 0
        | some _ => 1) ∧
    ((writeHandler cfg cf r wenv).counterIncr =
      match wenv.bodyResult with
      | .fail _ => 0
      | .ok bs =>
        match snappyDecode bs with
        | none => 0
        | some _ => 1) := by
  constructor
  · cases hb : env.bodyResult with
    | fail e => simp [readHandler_body_fail cfg r env e hb]
    | ok bs =>
      cases hs : snappyDecode bs with
      | none => simp [readHandler_snappy_fail cfg r env bs hb hs, hs]
      | some buf =>
        cases hd : decReadRequest buf with
        | none => simp [readHandler_parse_fail cfg r env bs buf hb hs hd, hs]
        | some req =>
          cases hc : env.clientOk with
          | false => simp [readHandler_client_failed cfg r env bs buf req hb hs hd hc, hs]
          | true =>
            cases hr : env.readResult with
            | fail e =>
              simp [readHandler_backend_fail cfg r env bs buf req e hb hs hd hc hr, hs]
            | ok resp =>
              simp [readHandler_success cfg r env bs buf req resp hb hs hd hc hr, hs]
  · cases hb : wenv.bodyResult with
    | fail e => simp [writeHandler_body_fail cfg cf r wenv e hb]
    | ok bs =>
      cases hs : snappyDecode bs with
      | none => simp [writeHandler_snappy_fail cfg cf r wenv bs hb hs, hs]
      | some buf =>
        cases hd : decWriteRequest buf with
        | none => simp [writeHandler_parse_fail cfg cf r wenv bs buf hb hs hd, hs]
        | some req =>
          cases cf with
          | true => simp [writeHandler_ctor_failed cfg r wenv bs buf req hb hs hd, hs]
          | false =>
            cases hw : wenv.writeResult with
            | fail e =>
              simp [writeHandler_backend_fail cfg r wenv bs buf req e hb hs hd hw, hs]
            | ok u =>
              cases u
              simp [writeHandler_success cfg r wenv bs buf req hb hs hd hw, hs]

/-- C2, counterexample: with a well-formed body and a failed client
construction, the `/read` handler still invokes `Read` on the failed
handle (the construction error is bound to `_` and never checked) and
produces no 500 response — contradicting the claim that the handler
does not invoke read on a failed construction and surfaces a 500. -/
theorem C2_counterexample :
    (readHandler cfgEx reqPost ⟨.ok readBodyEx, false, .ok pEx⟩).readOnFailedClient = true ∧
    (readHandler cfgEx reqPost ⟨.ok readBodyEx, false, .ok pEx⟩).response = none := by
  decide

/-- C2 (amended): for every `/read` request whose body decodes, if the
per-request client construction fails, the handler discards the error
and still invokes read on the failed handle, and no 500 response (or any
response defined by `main.go`) is produced. -/
theorem C2_read_on_failed_construction (cfg : Config) (r : HttpRequest) (env : ReadEnv)
    (bs : List Nat) (req : ReadRequest) (hb : env.bodyResult = .ok bs)
    (hd : decodeWireRead bs = some req) (hc : env.clientOk = false) :
    (readHandler cfg r env).backendCalls = 1 ∧
    (readHandler cfg r env).readOnFailedClient = true ∧
    (readHandler cfg r env).response = none := by
  obtain ⟨buf, hs, hp⟩ := decodeWireRead_some bs req hd
  rw [readHandler_client_failed cfg r env bs buf req hb hs hp hc]
  exact ⟨rfl, rfl, rfl⟩

/-- C2 witness: the amended statement at a concrete request. -/
theorem C2_witness :
    decodeWireRead readBodyEx = some qEx ∧
    ((readHandler cfgEx reqPost ⟨.ok readBodyEx, false, .ok pEx⟩).backendCalls = 1 ∧
     (readHandler cfgEx reqPost ⟨.ok readBodyEx, false, .ok pEx⟩).readOnFailedClient = true ∧
     (readHandler cfgEx reqPost ⟨.ok readBodyEx, false, .ok pEx⟩).response = none) :=
  ⟨by decide,
   C2_read_on_failed_construction cfgEx reqPost ⟨.ok readBodyEx, false, .ok pEx⟩
     readBodyEx qEx rfl (by decide) rfl⟩

/-- C3: when decoding of the body fails — at the decompression stage or
at the message parsing stage — the backend is never invoked on either
path. -/
theorem C3_no_backend_on_decode_failure (cfg : Config) (r : HttpRequest) (env : ReadEnv)
    (wenv : WriteEnv) (cf : Bool) (bs bw : List Nat)
    (hb : env.bodyResult = .ok bs) (hr : decodeWireRead bs = none)
    (hbw : wenv.bodyResult = .ok bw) (hw : decodeWireWrite bw = none) :
    ((readHandler cfg r env).backendCalls = 0 ∧
     (readHandler cfg r env).backendQuery = none) ∧
    ((writeHandler cfg cf r wenv).backendCalls = 0 ∧
     (writeHandler cfg cf r wenv).backendBatch = none) := by
  constructor
  · rcases decodeWireRead_none bs hr with hs | ⟨buf, hs, hp⟩
    · rw [readHandler_snappy_fail cfg r env bs hb hs]; exact ⟨rfl, rfl⟩
    · rw [readHandler_parse_fail cfg r env bs buf hb hs hp]; exact ⟨rfl, rfl⟩
  · rcases decodeWireWrite_none bw hw with hs | ⟨buf, hs, hp⟩
    · rw [writeHandler_snappy_fail cfg cf r wenv bw hbw hs]; exact ⟨rfl, rfl⟩
    · rw [writeHandler_parse_fail cfg cf r wenv bw buf hbw hs hp]; exact ⟨rfl, rfl⟩

/-- C3 witness: a truncated snappy frame on the read path and a framed
but unparsable message on the write path. -/
theorem C3_witness :
    decodeWireRead [255] = none ∧
    decodeWireWrite (snappyEncode [8]) = none ∧
    (((readHandler cfgEx reqPost ⟨.ok [255], true, .ok pEx⟩).backendCalls = 0 ∧
      (readHandler cfgEx reqPost ⟨.ok [255], true, .ok pEx⟩).backendQuery = none) ∧
     ((writeHandler cfgEx false reqPost ⟨.ok (snappyEncode [8]), .ok (), true⟩).backendCalls = 0 ∧
      (writeHandler cfgEx false reqPost ⟨.ok (snappyEncode [8]), .ok (), true⟩).backendBatch = none)) :=
  ⟨by decide, by decide,
   C3_no_backend_on_decode_failure cfgEx reqPost ⟨.ok [255], true, .ok pEx⟩
     ⟨.ok (snappyEncode [8]), .ok (), true⟩ false [255] (snappyEncode [8])
     rfl (by decide) rfl (by decide)⟩

/-- C4: the read path constructs the per-request backend client with
exactly the caller's basic credentials — empty strings when the header
is absent — while the write path's behaviour is independent of caller
credentials and any client arguments it records are the static startup
arguments, whose credentials are the configured (empty) ones. -/
theorem C4_credential_passthrough (cfg : Config) (env : ReadEnv) (wenv : WriteEnv)
    (cf : Bool) (r : HttpRequest) (m : String) (a a' : Option (String × String))
    (bs : List Nat) (req : ReadRequest)
    (hb : env.bodyResult = .ok bs) (hd : decodeWireRead bs = some req) :
    (readHandler cfg r env).clientArgs =
      some (mkClientArgs cfg (basicCreds r).1 (basicCreds r).2) ∧
    (mkClientArgs cfg (basicCreds r).1 (basicCreds r).2).user = (basicCreds r).1 ∧
    (mkClientArgs cfg (basicCreds r).1 (basicCreds r).2).pass = (basicCreds r).2 ∧
    (r.basicAuth = none → basicCreds r = ("", "")) ∧
    writeHandler cfg cf ⟨m, a⟩ wenv = writeHandler cfg cf ⟨m, a'⟩ wenv ∧
    (∀ args, (writeHandler cfg cf ⟨m, a⟩ wenv).clientArgs = some args →
      args = writeClientArgs cfg) ∧
    (writeClientArgs cfg).user = "" ∧ (writeClientArgs cfg).pass = "" := by
  obtain ⟨buf, hs, hp⟩ := decodeWireRead_some bs req hd
  refine ⟨?_, rfl, rfl, ?_, rfl, ?_, rfl, rfl⟩
  · cases hc : env.clientOk with
    | false => rw [readHandler_client_failed cfg r env bs buf req hb hs hp hc]
    | true =>
      cases hr : env.readResult with
      | fail e => rw [readHandler_backend_fail cfg r env bs buf req e hb hs hp hc hr]
      | ok resp => rw [readHandler_success cfg r env bs buf req resp hb hs hp hc hr]
  · intro h
    simp [basicCreds, h]
  · exact fun args h => writeHandler_clientArgs_static cfg cf ⟨m, a⟩ wenv args h

/-- C4 witness: a read request with credentials `(alice, secret)` and a
write request carrying credentials that are ignored. -/
theorem C4_witness :
    decodeWireRead readBodyEx = some qEx ∧
    basicCreds reqAlice = ("alice", "secret") ∧
    (readHandler cfgEx reqAlice ⟨.ok readBodyEx, true, .ok pEx⟩).clientArgs =
      some (mkClientArgs cfgEx (basicCreds reqAlice).1 (basicCreds reqAlice).2) :=
  ⟨by decide, rfl,
   (C4_credential_passthrough cfgEx ⟨.ok readBodyEx, true, .ok pEx⟩
     ⟨.ok writeBodyEx, .ok (), true⟩ false reqAlice ("GET")
     (some ("bob", "pw")) none readBodyEx qEx rfl (by decide)).1⟩

/-- C5: failures map to transport statuses exactly by class on both
paths — body read failure to 500, decompression or unmarshal failure to
400, backend failure to 500 with the backend's message followed by a
newline as the body (the message verbatim) — and the backend is invoked
at most once per request (no retry). -/
theorem C5_error_status_mapping (cfg : Config) (r : HttpRequest) (env : ReadEnv)
    (wenv : WriteEnv) (cf : Bool) :
    (∀ e, env.bodyResult = .fail e →
      (readHandler cfg r env).response = some (httpError e 500)) ∧
    (∀ e, wenv.bodyResult = .fail e →
      (writeHandler cfg cf r wenv).response = some (httpError e 500)) ∧
    (∀ bs, env.bodyResult = .ok bs → snappyDecode bs = none →
      (readHandler cfg r env).response = some (httpError snappyErrMsg 400)) ∧
    (∀ bs, wenv.bodyResult = .ok bs → snappyDecode bs = none →
      (writeHandler cfg cf r wenv).response = some (httpError snappyErrMsg 400)) ∧
    (∀ bs buf, env.bodyResult = .ok bs → snappyDecode bs = some buf →
      decReadRequest buf = none →
      (readHandler cfg r env).response = some (httpError unmarshalErrMsg 400)) ∧
    (∀ bs buf, wenv.bodyResult = .ok bs → snappyDecode bs = some buf →
      decWriteRequest buf = none →
      (writeHandler cfg cf r wenv).response = some (httpError unmarshalErrMsg 400)) ∧
    (∀ bs req e, env.bodyResult = .ok bs → decodeWireRead bs = some req →
      env.clientOk = true → env.readResult = .fail e →
      (readHandler cfg r env).response = some (httpError e 500)) ∧
    (∀ bs req e, wenv.bodyResult = .ok bs → decodeWireWrite bs = some req →
      wenv.writeResult = .fail e →
      (writeHandler cfg false r wenv).response = some (httpError e 500)) ∧
    (∀ e c, (httpError e c).status = c ∧ (httpError e c).body = .text (e ++ "\n")) ∧
    (readHandler cfg r env).backendCalls ≤ 1 ∧
    (writeHandler cfg cf r wenv).backendCalls ≤ 1 := by
  refine ⟨?_, ?_, ?_, ?_, ?_, ?_, ?_, ?_, ?_, ?_, ?_⟩
  · intro e hb; rw [readHandler_body_fail cfg r env e hb]
  · intro e hb; rw [writeHandler_body_fail cfg cf r wenv e hb]
  · intro bs hb hs; rw [readHandler_snappy_fail cfg r env bs hb hs]
  · intro bs hb hs; rw [writeHandler_snappy_fail cfg cf r wenv bs hb hs]
  · intro bs buf hb hs hp; rw [readHandler_parse_fail cfg r env bs buf hb hs hp]
  · intro bs buf hb hs hp; rw [writeHandler_parse_fail cfg cf r wenv bs buf hb hs hp]
  · intro bs req e hb hd hc hr
    obtain ⟨buf, hs, hp⟩ := decodeWireRead_some bs req hd
    rw [readHandler_backend_fail cfg r env bs buf req e hb hs hp hc hr]
  · intro bs req e hb hd hw
    obtain ⟨buf, hs, hp⟩ := decodeWireWrite_some bs req hd
    rw [writeHandler_backend_fail cfg r wenv bs buf req e hb hs hp hw]
  · exact fun e c => ⟨rfl, rfl⟩
  · exact readHandler_at_most_one_call cfg r env
  · exact writeHandler_at_most_one_call cfg cf r wenv

/-- C5 witness: one concrete request per failure class. -/
theorem C5_witness :
    (readHandler cfgEx reqPost ⟨.fail ("io"), true, .ok pEx⟩).response =
      some (httpError ("io") 500) ∧
    (writeHandler cfgEx false reqPost ⟨.fail ("io"), .ok (), true⟩).response =
      some (httpError ("io") 500) ∧
    (readHandler cfgEx reqPost ⟨.ok [255], true, .ok pEx⟩).response =
      some (httpError snappyErrMsg 400) ∧
    (writeHandler cfgEx false reqPost ⟨.ok [255], .ok (), true⟩).response =
      some (httpError snappyErrMsg 400) ∧
    (readHandler cfgEx reqPost ⟨.ok (snappyEncode [8]), true, .ok pEx⟩).response =
      some (httpError unmarshalErrMsg 400) ∧
    (writeHandler cfgEx false reqPost ⟨.ok (snappyEncode [8]), .ok (), true⟩).response =
      some (httpError unmarshalErrMsg 400) ∧
    (readHandler cfgEx reqPost ⟨.ok readBodyEx, true, .fail ("backend down")⟩).response =
      some (httpError ("backend down") 500) ∧
    (writeHandler cfgEx false reqPost ⟨.ok writeBodyEx, .fail ("backend down"), true⟩).response =
      some (httpError ("backend down") 500) :=
  ⟨(C5_error_status_mapping cfgEx reqPost ⟨.fail ("io"), true, .ok pEx⟩
      ⟨.fail ("io"), .ok (), true⟩ false).1 ("io") rfl,
   (C5_error_status_mapping cfgEx reqPost ⟨.fail ("io"), true, .ok pEx⟩
      ⟨.fail ("io"), .ok (), true⟩ false).2.1 ("io") rfl,
   (C5_error_status_mapping cfgEx reqPost ⟨.ok [255], true, .ok pEx⟩
      ⟨.ok [255], .ok (), true⟩ false).2.2.1 [255] rfl (by decide),
   (C5_error_status_mapping cfgEx reqPost ⟨.ok [255], true, .ok pEx⟩
      ⟨.ok [255], .ok (), true⟩ false).2.2.2.1 [255] rfl (by decide),
   (C5_error_status_mapping cfgEx reqPost ⟨.ok (snappyEncode [8]), true, .ok pEx⟩
      ⟨.ok (snappyEncode [8]), .ok (), true⟩ false).2.2.2.2.1 (snappyEncode [8]) [8]
      rfl (by decide) (by decide),
   (C5_error_status_mapping cfgEx reqPost ⟨.ok (snappyEncode [8]), true, .ok pEx⟩
      ⟨.ok (snappyEncode [8]), .ok (), true⟩ false).2.2.2.2.2.1 (snappyEncode [8]) [8]
      rfl (by decide) (by decide),
   (C5_error_status_mapping cfgEx reqPost ⟨.ok readBodyEx, true, .fail ("backend down")⟩
      ⟨.ok writeBodyEx, .fail ("backend down"), true⟩ false).2.2.2.2.2.2.1
      readBodyEx qEx ("backend down") rfl (by decide) rfl rfl,
   (C5_error_status_mapping cfgEx reqPost ⟨.ok readBodyEx, true, .fail ("backend down")⟩
      ⟨.ok writeBodyEx, .fail ("backend down"), true⟩ false).2.2.2.2.2.2.2.1
      writeBodyEx wEx ("backend down") rfl (by decide) rfl⟩

/-- C6: the wire codec round-trips every structurally valid message of
the three protocol types: decoding the encoding of a message reproduces
it exactly. -/
theorem C6_roundtrip (w : WriteRequest) (q : ReadRequest) (p : ReadResponse)
    (hw : w.Valid) (hq : q.Valid) (hp : p.Valid) :
    decodeWireWrite (encodeWireWrite w) = some w ∧
    decodeWireRead (encodeWireRead q) = some q ∧
    decodeWireResp (encodeWireResp p) = some p := by
  refine ⟨?_, ?_, ?_⟩
  · simp [decodeWireWrite, encodeWireWrite, snappyDecode_encode, decWriteRequest_enc w hw]
  · simp [decodeWireRead, encodeWireRead, snappyDecode_encode, decReadRequest_enc q hq]
  · simp [decodeWireResp, encodeWireResp, snappyDecode_encode, decReadResponse_enc p hp]

/-- C6 witness: the round trip at three concrete valid messages. -/
theorem C6_witness :
    wEx.Valid ∧ qEx.Valid ∧ pEx.Valid ∧
    decodeWireWrite (encodeWireWrite wEx) = some wEx ∧
    decodeWireRead (encodeWireRead qEx) = some qEx ∧
    decodeWireResp (encodeWireResp pEx) = some pEx :=
  ⟨by decide, by decide, by decide,
   (C6_roundtrip wEx qEx pEx (by decide) (by decide) (by decide)).1,
   (C6_roundtrip wEx qEx pEx (by decide) (by decide) (by decide)).2.1,
   (C6_roundtrip wEx qEx pEx (by decide) (by decide) (by decide)).2.2⟩

/-- C7: a `/read` request whose backend call succeeds responds with
status 200, the headers `Content-Type: application/x-protobuf` and
`Content-Encoding: snappy`, and the snappy-compressed protobuf
serialization of the result as body. -/
theorem C7_read_success_response (cfg : Config) (r : HttpRequest) (env : ReadEnv)
    (bs : List Nat) (req : ReadRequest) (resp : ReadResponse)
    (hb : env.bodyResult = .ok bs) (hd : decodeWireRead bs = some req)
    (hc : env.clientOk = true) (hr : env.readResult = .ok resp) :
    (readHandler cfg r env).response = some (readSuccessResponse resp) ∧
    (readSuccessResponse resp).status = 200 ∧
    (readSuccessResponse resp).contentType = some ("application/x-protobuf") ∧
    (readSuccessResponse resp).contentEncoding = some ("snappy") ∧
    (readSuccessResponse resp).body = .binary (snappyEncode (encReadResponse resp)) := by
  obtain ⟨buf, hs, hp⟩ := decodeWireRead_some bs req hd
  rw [readHandler_success cfg r env bs buf req resp hb hs hp hc hr]
  exact ⟨rfl, rfl, rfl, rfl, rfl⟩

/-- C7 witness: the success response at a concrete read request. -/
theorem C7_witness :
    decodeWireRead readBodyEx = some qEx ∧
    (readHandler cfgEx reqPost ⟨.ok readBodyEx, true, .ok pEx⟩).response =
      some (readSuccessResponse pEx) :=
  ⟨by decide,
   (C7_read_success_response cfgEx reqPost ⟨.ok readBodyEx, true, .ok pEx⟩
      readBodyEx qEx pEx rfl (by decide) rfl rfl).1⟩

/-- C8: a `/write` request whose backend write succeeds responds with
status 200 and the fixed body `ok`; a failure writing that
acknowledgement is logged (and only logged) — the response, including
its already-sent 200 status, is the same whether the acknowledgement
write succeeds or fails. -/
theorem C8_write_success_ack (cfg : Config) (r : HttpRequest) (wenv : WriteEnv)
    (bs : List Nat) (req : WriteRequest)
    (hb : wenv.bodyResult = .ok bs) (hd : decodeWireWrite bs = some req)
    (hw : wenv.writeResult = .ok ()) :
    (writeHandler cfg false r wenv).response = some writeSuccessResponse ∧
    writeSuccessResponse.status = 200 ∧
    writeSuccessResponse.body = .text ("ok") ∧
    (writeHandler cfg false r wenv).ackFailLogged = ! wenv.ackWriteOk := by
  obtain ⟨buf, hs, hp⟩ := decodeWireWrite_some bs req hd
  rw [writeHandler_success cfg r wenv bs buf req hb hs hp hw]
  exact ⟨rfl, rfl, rfl, rfl⟩

/-- C8 witness: the success response at a concrete write request whose
acknowledgement write fails. -/
theorem C8_witness :
    decodeWireWrite writeBodyEx = some wEx ∧
    (writeHandler cfgEx false reqPost ⟨.ok writeBodyEx, .ok (), false⟩).response =
      some writeSuccessResponse ∧
    (writeHandler cfgEx false reqPost ⟨.ok writeBodyEx, .ok (), false⟩).ackFailLogged = true :=
  ⟨by decide,
   (C8_write_success_ack cfgEx reqPost ⟨.ok writeBodyEx, .ok (), false⟩
      writeBodyEx wEx rfl (by decide) rfl).1,
   (C8_write_success_ack cfgEx reqPost ⟨.ok writeBodyEx, .ok (), false⟩
      writeBodyEx wEx rfl (by decide) rfl).2.2.2⟩

/-- C9: the write-path client arguments are fixed at startup from the
configuration alone — empty credentials and a timeout of the configured
seconds (as a nanosecond duration) — every `/write` request records
exactly those arguments, and a failed startup construction is discarded:
the handle is still used (the backend write is invoked) regardless. -/
theorem C9_static_write_client (cfg : Config) (r : HttpRequest) (wenv : WriteEnv)
    (cf : Bool) (bs : List Nat) (req : WriteRequest)
    (hb : wenv.bodyResult = .ok bs) (hd : decodeWireWrite bs = some req) :
    (writeClientArgs cfg).user = "" ∧
    (writeClientArgs cfg).pass = "" ∧
    (writeClientArgs cfg).timeoutNs = 1000000000 * cfg.timeoutSeconds ∧
    (∀ args, (writeHandler cfg cf r wenv).clientArgs = some args →
      args = writeClientArgs cfg) ∧
    (writeHandler cfg true r wenv).backendCalls = 1 ∧
    (writeHandler cfg true r wenv).backendBatch = some req ∧
    (writeHandler cfg true r wenv).clientArgs = some (writeClientArgs cfg) := by
  obtain ⟨buf, hs, hp⟩ := decodeWireWrite_some bs req hd
  refine ⟨rfl, rfl, rfl, ?_, ?_, ?_, ?_⟩
  · exact fun args h => writeHandler_clientArgs_static cfg cf r wenv args h
  · rw [writeHandler_ctor_failed cfg r wenv bs buf req hb hs hp]
  · rw [writeHandler_ctor_failed cfg r wenv bs buf req hb hs hp]
  · rw [writeHandler_ctor_failed cfg r wenv bs buf req hb hs hp]

/-- C9 witness: the static write client at a concrete configuration and
request, with a failed startup construction. -/
theorem C9_witness :
    decodeWireWrite writeBodyEx = some wEx ∧
    (writeClientArgs cfgEx).user = "" ∧
    (writeClientArgs cfgEx).timeoutNs = 60000000000 ∧
    (writeHandler cfgEx true reqPost ⟨.ok writeBodyEx, .ok (), true⟩).backendCalls = 1 :=
  ⟨by decide, by decide, by decide,
   (C9_static_write_client cfgEx reqPost ⟨.ok writeBodyEx, .ok (), true⟩ true
      writeBodyEx wEx rfl (by decide)).2.2.2.2.1⟩

/-- C10: neither handler inspects the request method: for any fixed body
and environment, a request with any method yields exactly the same
outcome as a POST (or any other method). -/
theorem C10_method_ignored (cfg : Config) (env : ReadEnv) (wenv : WriteEnv) (cf : Bool)
    (m m' : String) (auth : Option (String × String)) :
    readHandler cfg ⟨m, auth⟩ env = readHandler cfg ⟨m', auth⟩ env ∧
    writeHandler cfg cf ⟨m, auth⟩ wenv = writeHandler cfg cf ⟨m', auth⟩ wenv :=
  ⟨rfl, rfl⟩

end Ropee
